import Mathlib

/-!
Verification of the Ride2Online_Event repository: the WebSocket connection
registry (`ConnectionManager`) and the `/events` HTTP route handlers
(`src/app/api/routes/events.py`).

Connections are identified by natural numbers (an opaque session handle);
messages are strings.  The route handlers from `src/app/api/routes/events.py`
are embedded directly from the source; the `ConnectionManager` class and the
`EventRepository` live in files of the repository that are not part of the
provided sources, so they are modelled from the specification's contract for
them, as noted on each definition.
-/

namespace Ride2Online

/-! ## Connection registry (`ConnectionManager`) -/

namespace ConnectionManager

/-- Modelled from the spec: `app/manager/connection_manager.py` (the
`ConnectionManager` class imported by `src/app/manager/events.py` and
`src/app/api/routes/events.py`) is not among the provided sources.  The spec
describes the active set as "a mutable set of Connections" where "a Connection
appears at most once" and `register` "is a no-op or re-insertion (idempotent
from the caller's perspective — must not create duplicates)".  The active set
is modelled as a duplicate-free list; `connect` (the spec's `register`) inserts
the connection only when it is not already present. -/
def connect (c : Nat) (s : List Nat) : List Nat :=
  if c ∈ s then s else c :: s

/-- Modelled from the spec: `deregister` "removes `connection` from the active
set if present. No error if absent".  The source method is named `disconnect`
(it is called as `manager.disconnect(websocket)` in
`src/app/api/routes/events.py`). -/
def disconnect (c : Nat) (s : List Nat) : List Nat :=
  s.erase c

/-- Modelled from the spec: `send_to(connection, message)` "delivers `message`
to exactly one specific connection. Fails with `DeliveryError` if the
underlying transport for that connection is no longer usable"; whether a
transport is usable is abstracted as the predicate `broken`. -/
def send_to (broken : Nat → Bool) (c : Nat) (m : String) :
    Except Unit (Nat × String) :=
  if broken c then .error () else .ok (c, m)

/-- Modelled from the spec: `broadcast(message)` "delivers `message` to every
connection currently in the active set, best-effort: a delivery failure to one
connection must not prevent delivery to the others, and must not raise an
error back to the caller".  The result is the list of successful deliveries
(connection, message); the function is total, so no error ever reaches the
caller. -/
def broadcast (broken : Nat → Bool) (m : String) : List Nat → List (Nat × String)
  | [] => []
  | c :: rest =>
    match send_to broken c m with
    | .ok d => d :: broadcast broken m rest
    | .error _ => broadcast broken m rest

end ConnectionManager

/-! ## Replay of register/deregister sequences (for the set invariant) -/

/-- A single call against the registry's membership interface. -/
inductive RegOp where
  | reg (c : Nat)
  | dereg (c : Nat)
deriving DecidableEq, Repr

/-- The connection a membership call is about. -/
def RegOp.conn : RegOp → Nat
  | .reg c => c
  | .dereg c => c

/-- Apply one membership call to the active set. -/
def applyOp (s : List Nat) (op : RegOp) : List Nat :=
  match op with
  | .reg c => ConnectionManager.connect c s
  | .dereg c => ConnectionManager.disconnect c s

/-- Replay a sequence of membership calls from a given starting set. -/
def replayFrom (ops : List RegOp) (s : List Nat) : List Nat :=
  ops.foldl applyOp s

/-- Replay a sequence of membership calls from the empty set. -/
def replay (ops : List RegOp) : List Nat :=
  replayFrom ops []

/-- A connection's registrations are "net positive" after a call sequence when
the last membership call concerning it is a registration, i.e. at least one
registration has not been cancelled by a matching later deregistration (a
deregistration removes the single set entry, so it cancels every earlier
registration of that connection). -/
def netPositive (c : Nat) (ops : List RegOp) : Bool :=
  match ops.reverse.find? (fun op => op.conn == c) with
  | some (.reg _) => true
  | _ => false

/-! ### Lemmas about replay -/

theorem mem_connect (c d : Nat) (s : List Nat) :
    c ∈ ConnectionManager.connect d s ↔ c = d ∨ c ∈ s := by
  unfold ConnectionManager.connect
  split
  · constructor
    · exact Or.inr
    · rintro (rfl | h)
      · assumption
      · exact h
  · simp [List.mem_cons]

theorem nodup_connect (d : Nat) (s : List Nat) (h : s.Nodup) :
    (ConnectionManager.connect d s).Nodup := by
  unfold ConnectionManager.connect
  split
  · exact h
  · exact List.Nodup.cons (by assumption) h

theorem nodup_disconnect (d : Nat) (s : List Nat) (h : s.Nodup) :
    (ConnectionManager.disconnect d s).Nodup :=
  h.erase d

theorem nodup_applyOp (op : RegOp) (s : List Nat) (h : s.Nodup) :
    (applyOp s op).Nodup := by
  cases op with
  | reg c => exact nodup_connect c s h
  | dereg c => exact nodup_disconnect c s h

theorem nodup_replayFrom (ops : List RegOp) (s : List Nat) (h : s.Nodup) :
    (replayFrom ops s).Nodup := by
  induction ops generalizing s with
  | nil => exact h
  | cons op rest ih => exact ih (applyOp s op) (nodup_applyOp op s h)

theorem nodup_replay (ops : List RegOp) : (replay ops).Nodup :=
  nodup_replayFrom ops [] List.nodup_nil

theorem replayFrom_append_single (ops : List RegOp) (op : RegOp) (s : List Nat) :
    replayFrom (ops ++ [op]) s = applyOp (replayFrom ops s) op := by
  simp [replayFrom, List.foldl_append]

theorem netPositive_append_single (c : Nat) (ops : List RegOp) (op : RegOp) :
    netPositive c (ops ++ [op]) =
      if op.conn = c then
        (match op with
         | .reg _ => true
         | .dereg _ => false)
      else netPositive c ops := by
  unfold netPositive
  rw [List.reverse_append]
  by_cases hdc : op.conn = c
  · cases op <;> simp_all [List.find?]
  · have hbe : (op.conn == c) = false := by simp [hdc]
    simp [List.find?, hbe, hdc]

theorem mem_replay_iff_netPositive (ops : List RegOp) (c : Nat) :
    c ∈ replay ops ↔ netPositive c ops = true := by
  induction ops using List.reverseRecOn with
  | nil => simp [replay, replayFrom, netPositive]
  | append_singleton ops op ih =>
    have hnodup : (replay ops).Nodup := nodup_replay ops
    have hrep : replay (ops ++ [op]) = applyOp (replay ops) op :=
      replayFrom_append_single ops op []
    rw [hrep, netPositive_append_single]
    cases op with
    | reg d =>
      simp only [applyOp, RegOp.conn]
      rw [mem_connect]
      by_cases hdc : d = c
      · simp [hdc]
      · rw [if_neg hdc, ← ih]
        constructor
        · rintro (rfl | h)
          · exact absurd rfl hdc
          · exact h
        · exact Or.inr
    | dereg d =>
      simp only [applyOp, ConnectionManager.disconnect, RegOp.conn]
      rw [List.Nodup.mem_erase_iff hnodup]
      by_cases hdc : d = c
      · simp [hdc]
      · rw [if_neg hdc, ← ih]
        constructor
        · exact fun h => h.2
        · exact fun h => ⟨fun hc => hdc hc.symm, h⟩

/-! ### Lemmas about broadcast -/

theorem count_broadcast (broken : Nat → Bool) (m : String) (c : Nat) :
    ∀ s : List Nat, s.Nodup →
      (ConnectionManager.broadcast broken m s).count (c, m) =
        if c ∈ s ∧ broken c = false then 1 else 0 := by
  intro s
  induction s with
  | nil =>
    intro _
    simp [ConnectionManager.broadcast]
  | cons a rest ih =>
    intro h
    have hrest := ih (List.nodup_cons.mp h).2
    by_cases hba : broken a = true
    · have hb : ConnectionManager.broadcast broken m (a :: rest) =
          ConnectionManager.broadcast broken m rest := by
        simp [ConnectionManager.broadcast, ConnectionManager.send_to, hba]
      rw [hb, hrest]
      by_cases hbc : broken c = true
      · simp [hbc]
      · have hca : ¬c = a := fun hc => by
          rw [hc] at hbc
          exact hbc hba
        simp [List.mem_cons, hca]
    · have hba' : broken a = false := by simpa using hba
      have hb : ConnectionManager.broadcast broken m (a :: rest) =
          (a, m) :: ConnectionManager.broadcast broken m rest := by
        simp [ConnectionManager.broadcast, ConnectionManager.send_to, hba']
      rw [hb, List.count_cons, hrest]
      by_cases hca : c = a
      · subst hca
        have hnm : c ∉ rest := (List.nodup_cons.mp h).1
        simp [hnm, hba']
      · have hac : ¬a = c := fun hc => hca hc.symm
        simp [hca, hac, List.mem_cons]

/-! ## Claim theorems for the registry -/

/-- C1: for every finite sequence of register and deregister calls replayed
from the empty set, the active set contains exactly those connections whose
registrations net of matching deregistrations are positive (at least one
registration not cancelled by a matching later deregistration), and no
connection ever appears more than once in the set. -/
theorem replay_active_set_exact (ops : List RegOp) :
    (replay ops).Nodup ∧ ∀ c, (c ∈ replay ops ↔ netPositive c ops = true) :=
  ⟨nodup_replay ops, fun c => mem_replay_iff_netPositive ops c⟩

/-- C2: a broadcast of `m` over a duplicate-free active set delivers `m`
exactly once to every connection whose transport works, even when delivery to
some other connection fails (its count is simply `0`); `broadcast` is a total
function, so no error is ever raised to the caller. -/
theorem broadcast_delivers_exactly_once (broken : Nat → Bool) (m : String)
    (s : List Nat) (h : s.Nodup) (c : Nat) :
    ((c ∈ s ∧ broken c = false) →
        (ConnectionManager.broadcast broken m s).count (c, m) = 1)
    ∧ ((c ∉ s ∨ broken c = true) →
        (ConnectionManager.broadcast broken m s).count (c, m) = 0) := by
  constructor
  · intro hc
    rw [count_broadcast broken m c s h, if_pos hc]
  · intro hc
    rw [count_broadcast broken m c s h, if_neg]
    rintro ⟨h1, h2⟩
    rcases hc with h3 | h3
    · exact h3 h1
    · rw [h3] at h2
      exact Bool.true_eq_false.mp h2

/-- Witness for C2: with active set `{1, 2, 3}` where delivery to `2` fails,
`1` and `3` each still receive `m` exactly once and `2` receives nothing. -/
theorem broadcast_delivers_exactly_once_witness :
    (ConnectionManager.broadcast (fun c => decide (c = 2)) "m" [1, 2, 3]).count (1, "m") = 1
    ∧ (ConnectionManager.broadcast (fun c => decide (c = 2)) "m" [1, 2, 3]).count (3, "m") = 1
    ∧ (ConnectionManager.broadcast (fun c => decide (c = 2)) "m" [1, 2, 3]).count (2, "m") = 0 :=
  ⟨(broadcast_delivers_exactly_once (fun c => decide (c = 2)) "m" [1, 2, 3]
      (by decide) 1).1 ⟨by decide, by decide⟩,
   (broadcast_delivers_exactly_once (fun c => decide (c = 2)) "m" [1, 2, 3]
      (by decide) 3).1 ⟨by decide, by decide⟩,
   (broadcast_delivers_exactly_once (fun c => decide (c = 2)) "m" [1, 2, 3]
      (by decide) 2).2 (Or.inr (by decide))⟩

/-- C7: deregistering a connection that is not in the active set leaves the
set exactly unchanged (and, `disconnect` being total, raises no error). -/
theorem disconnect_absent_noop (c : Nat) (s : List Nat) (h : c ∉ s) :
    ConnectionManager.disconnect c s = s :=
  List.erase_of_not_mem h

/-- Witness for C7: deregistering `5` from `{1, 2}` leaves `{1, 2}`. -/
theorem disconnect_absent_noop_witness :
    ConnectionManager.disconnect 5 [1, 2] = [1, 2] :=
  disconnect_absent_noop 5 [1, 2] (by decide)

/-! ## Concurrency model: a broadcast pass interleaved with membership calls

Concurrent session tasks are modelled by interleaving: an arbitrary sequence
of atomic steps, each either a membership call from some other task or the
delivery of the next pending message of the broadcast pass under scrutiny. -/

/-- The state of one in-flight broadcast pass: the membership snapshot it took
when it started, the connections it has not yet delivered to, and the
connections it has delivered to, in order. -/
structure BroadcastPass where
  snapshot : List Nat
  remaining : List Nat
  delivered : List Nat
deriving Repr, DecidableEq

/-- One atomic step of the interleaved system: a register or deregister call
issued by a concurrent task, or the broadcast pass delivering to the next
connection of its snapshot. -/
inductive SysOp where
  | regStep (c : Nat)
  | deregStep (c : Nat)
  | deliverStep
deriving Repr, DecidableEq

/-- The shared registry together with one in-flight broadcast pass. -/
structure SysState where
  active : List Nat
  pass : BroadcastPass
deriving Repr, DecidableEq

/-- Modelled from the spec: "broadcast takes a snapshot of the current
membership before iterating".  Starting a broadcast captures the active set as
the pass's snapshot and work list. -/
def startBroadcast (active : List Nat) : SysState :=
  { active := active
    pass := { snapshot := active, remaining := active, delivered := [] } }

/-- Execute one atomic interleaved step.  Membership calls touch only the
shared active set; a delivery step touches only the pass. -/
def sysStep (st : SysState) (op : SysOp) : SysState :=
  match op with
  | .regStep c => { st with active := ConnectionManager.connect c st.active }
  | .deregStep c => { st with active := ConnectionManager.disconnect c st.active }
  | .deliverStep =>
    match st.pass.remaining with
    | [] => st
    | c :: rest =>
      { st with
          pass := { st.pass with
                      remaining := rest
                      delivered := st.pass.delivered ++ [c] } }

/-- Run an arbitrary interleaving of atomic steps. -/
def runSys (ops : List SysOp) (st : SysState) : SysState :=
  ops.foldl sysStep st

theorem sysStep_deliver_nil (st : SysState) (hrem : st.pass.remaining = []) :
    sysStep st .deliverStep = st := by
  unfold sysStep
  rw [hrem]

theorem sysStep_deliver_cons (st : SysState) (c : Nat) (rest : List Nat)
    (hrem : st.pass.remaining = c :: rest) :
    sysStep st .deliverStep =
      { st with
          pass := { st.pass with
                      remaining := rest
                      delivered := st.pass.delivered ++ [c] } } := by
  unfold sysStep
  rw [hrem]

theorem runSys_pass_inv (ops : List SysOp) :
    ∀ st : SysState, st.pass.delivered ++ st.pass.remaining = st.pass.snapshot →
      (runSys ops st).pass.snapshot = st.pass.snapshot ∧
      (runSys ops st).pass.delivered ++ (runSys ops st).pass.remaining =
        st.pass.snapshot := by
  induction ops with
  | nil => exact fun st h => ⟨rfl, h⟩
  | cons op rest ih =>
    intro st h
    have hstep : (sysStep st op).pass.snapshot = st.pass.snapshot ∧
        (sysStep st op).pass.delivered ++ (sysStep st op).pass.remaining =
          st.pass.snapshot := by
      cases op with
      | regStep c => exact ⟨rfl, h⟩
      | deregStep c => exact ⟨rfl, h⟩
      | deliverStep =>
        cases hrem : st.pass.remaining with
        | nil =>
          rw [sysStep_deliver_nil st hrem]
          exact ⟨rfl, h⟩
        | cons c rest' =>
          rw [sysStep_deliver_cons st c rest' hrem]
          refine ⟨rfl, ?_⟩
          rw [hrem] at h
          simpa [List.append_assoc] using h
    obtain ⟨h1, h2⟩ := hstep
    obtain ⟨h3, h4⟩ := ih (sysStep st op) (h2.trans h1.symm)
    exact ⟨h3.trans h1, h4.trans h1⟩

/-- C8: every interleaving of register/deregister steps with the deliveries of
a broadcast pass preserves the pass's snapshot, and the deliveries made plus
those pending are always exactly that snapshot: a connection registered
concurrently is either delivered to as a snapshot member or not touched by the
pass at all, the delivered list never holds a duplicate (for a duplicate-free
snapshot), and a completed pass (nothing remaining) has delivered to exactly
the membership captured at call time — no skipped or duplicate delivery. -/
theorem broadcast_snapshot_isolation (s0 : List Nat) (ops : List SysOp)
    (h : s0.Nodup) :
    (runSys ops (startBroadcast s0)).pass.snapshot = s0
    ∧ (runSys ops (startBroadcast s0)).pass.delivered ++
        (runSys ops (startBroadcast s0)).pass.remaining = s0
    ∧ (runSys ops (startBroadcast s0)).pass.delivered.Nodup
    ∧ ((runSys ops (startBroadcast s0)).pass.remaining = [] →
        ∀ c, c ∈ (runSys ops (startBroadcast s0)).pass.delivered ↔ c ∈ s0) := by
  obtain ⟨h1, h2⟩ := runSys_pass_inv ops (startBroadcast s0) rfl
  have hs : (startBroadcast s0).pass.snapshot = s0 := rfl
  rw [hs] at h1 h2
  refine ⟨h1, h2, ?_, ?_⟩
  · have hn : ((runSys ops (startBroadcast s0)).pass.delivered ++
        (runSys ops (startBroadcast s0)).pass.remaining).Nodup := by
      rw [h2]
      exact h
    exact List.Nodup.of_append_left hn
  · intro hrem c
    rw [hrem, List.append_nil] at h2
    rw [h2]

/-- Witness for C8: starting a broadcast over `{1, 2}`, then delivering,
having a concurrent task register `3`, and delivering again, completes the
pass; `3` is not among the deliveries because it was not in the snapshot. -/
theorem broadcast_snapshot_isolation_witness :
    3 ∈ (runSys [SysOp.deliverStep, SysOp.regStep 3, SysOp.deliverStep]
        (startBroadcast [1, 2])).pass.delivered ↔ 3 ∈ [1, 2] :=
  ((broadcast_snapshot_isolation [1, 2]
      [SysOp.deliverStep, SysOp.regStep 3, SysOp.deliverStep]
      (by decide)).2.2.2 (by decide)) 3

/-! ## WebSocket session loop (`websocket_events` in
`src/app/api/routes/events.py`) -/

/-- Modelled from the spec: `send_to` through a working transport;
`send_personal_message` is the method name the route calls on the manager.
The delivery is the pair (target connection, message). -/
def ConnectionManager.send_personal_message (m : String) (w : Nat) :
    Nat × String :=
  (w, m)

/-- The personal echo `f"You wrote: {data}"` from the source. -/
def wroteMsg (d : String) : String :=
  "You wrote: " ++ d

/-- The chat broadcast `f"Client #{user.id} says: {data}"` from the source. -/
def saysMsg (u : Nat) (d : String) : String :=
  "Client #" ++ (toString u ++ (" says: " ++ d))

/-- The departure notice `f"Client #{user.id} left the chat"` from the
source. -/
def leftMsg (u : Nat) : String :=
  "Client #" ++ (toString u ++ " left the chat")

/-- One outcome of `await websocket.receive_json()` inside the receive loop:
a received payload, a `WebSocketDisconnect`, or any other exception raised
while receiving or handling a message. -/
inductive WsEvent where
  | msg (d : String)
  | disconnect
  | failure
deriving DecidableEq, Repr

/-- The loop body of `websocket_events` for one received payload `data`:
`await manager.send_personal_message(f"You wrote: {data}", websocket)`
followed by `await manager.broadcast(f"Client #{user.id} says: {data}")`
over the current active set (all transports working). -/
def handle_message (u : Nat) (d : String) (s : List Nat) :
    List (Nat × String) :=
  ConnectionManager.send_personal_message (wroteMsg d) u ::
    ConnectionManager.broadcast (fun _ => false) (saysMsg u d) s

/-- The `except WebSocketDisconnect` handler of `websocket_events`:
`manager.disconnect(websocket)` followed by
`await manager.broadcast(f"Client #{user.id} left the chat")` over the
now-shrunk active set. -/
def handle_disconnect (u : Nat) (s : List Nat) :
    List Nat × List (Nat × String) :=
  (ConnectionManager.disconnect u s,
   ConnectionManager.broadcast (fun _ => false) (leftMsg u)
     (ConnectionManager.disconnect u s))

/-- The `while True` receive loop of `websocket_events`, run over a list of
receive outcomes.  A payload is echoed and broadcast and the loop continues; a
`WebSocketDisconnect` is caught, deregisters the connection and broadcasts the
departure notice; any other exception propagates, ending the loop with no
deregistration and no further delivery.  Returns the final active set and the
deliveries issued, in order. -/
def session_loop (u : Nat) (s : List Nat) :
    List WsEvent → List Nat × List (Nat × String)
  | [] => (s, [])
  | .msg d :: rest =>
    let r := session_loop u s rest
    (r.1, handle_message u d s ++ r.2)
  | .disconnect :: _ => handle_disconnect u s
  | .failure :: _ => (s, [])

/-- The whole `websocket_events` handler: `await manager.connect(websocket)`
followed by the receive loop. -/
def websocket_events (u : Nat) (s : List Nat) (evs : List WsEvent) :
    List Nat × List (Nat × String) :=
  session_loop u (ConnectionManager.connect u s) evs

/-! ### Lemmas about the session loop -/

theorem mem_broadcast_snd (broken : Nat → Bool) (m : String) :
    ∀ s : List Nat, ∀ p ∈ ConnectionManager.broadcast broken m s, p.2 = m := by
  intro s
  induction s with
  | nil => simp [ConnectionManager.broadcast]
  | cons a rest ih =>
    intro p hp
    by_cases hba : broken a = true
    · have hb : ConnectionManager.broadcast broken m (a :: rest) =
          ConnectionManager.broadcast broken m rest := by
        simp [ConnectionManager.broadcast, ConnectionManager.send_to, hba]
      rw [hb] at hp
      exact ih p hp
    · have hba' : broken a = false := by simpa using hba
      have hb : ConnectionManager.broadcast broken m (a :: rest) =
          (a, m) :: ConnectionManager.broadcast broken m rest := by
        simp [ConnectionManager.broadcast, ConnectionManager.send_to, hba']
      rw [hb] at hp
      rcases List.mem_cons.mp hp with hfst | hrest2
      · rw [hfst]
      · exact ih p hrest2

theorem wroteMsg_ne_leftMsg (d : String) (u : Nat) : wroteMsg d ≠ leftMsg u := by
  intro heq
  have h2 : (wroteMsg d).data = (leftMsg u).data := by rw [heq]
  have h3 : (wroteMsg d).data = 'Y' :: ("ou wrote: ".data ++ d.data) := rfl
  obtain ⟨t, h4⟩ : ∃ t, (leftMsg u).data = 'C' :: t := ⟨_, rfl⟩
  rw [h3, h4] at h2
  injection h2 with hhead _
  exact absurd hhead (by decide)

theorem saysMsg_ne_leftMsg (u : Nat) (d : String) : saysMsg u d ≠ leftMsg u := by
  intro heq
  have h2 : (saysMsg u d).data = (leftMsg u).data := by rw [heq]
  have h3 : (saysMsg u d).data =
      "Client #".data ++ ((toString u).data ++ (" says: ".data ++ d.data)) := rfl
  have h4 : (leftMsg u).data =
      "Client #".data ++ ((toString u).data ++ " left the chat".data) := rfl
  rw [h3, h4] at h2
  have h6 := List.append_cancel_left (List.append_cancel_left h2)
  have h7 : (' ' :: 's' :: ("ays: ".data ++ d.data)) =
      (' ' :: 'l' :: "eft the chat".data) := h6
  injection h7 with _ h8
  injection h8 with h9 _
  exact absurd h9 (by decide)

theorem session_loop_no_disconnect (u : Nat) (evs : List WsEvent)
    (h : WsEvent.disconnect ∉ evs) :
    ∀ s : List Nat, (session_loop u s evs).1 = s
      ∧ ∀ c m, (c, m) ∈ (session_loop u s evs).2 → m ≠ leftMsg u := by
  induction evs with
  | nil => exact fun s => ⟨rfl, fun c m hm => nomatch hm⟩
  | cons e rest ih =>
    intro s
    cases e with
    | msg d =>
      have hrest : WsEvent.disconnect ∉ rest :=
        fun hmem => h (List.mem_cons_of_mem _ hmem)
      obtain ⟨ih1, ih2⟩ := ih hrest s
      refine ⟨ih1, ?_⟩
      intro c m hm
      have hm' : (c, m) ∈ handle_message u d s ∨
          (c, m) ∈ (session_loop u s rest).2 :=
        List.mem_append.mp hm
      rcases hm' with hm1 | hm2
      · rcases List.mem_cons.mp hm1 with he | hb
        · have hme : m = wroteMsg d := congrArg Prod.snd he
          rw [hme]
          exact wroteMsg_ne_leftMsg d u
        · have hms : m = saysMsg u d := mem_broadcast_snd _ _ s (c, m) hb
          rw [hms]
          exact saysMsg_ne_leftMsg u d
      · exact ih2 c m hm2
    | disconnect => exact absurd (List.mem_cons_self _ _) h
    | failure => exact ⟨rfl, fun c m hm => nomatch hm⟩

/-! ## Claim theorems for the session loop -/

/-- C3: with active set `{A, B}` built by A then B connecting (A = 1, B = 2):
when A sends `"hi"`, the registry unicasts `"You wrote: hi"` to A and
broadcasts `"Client #1 says: hi"` to both A and B (the sender included); when
B disconnects, B is deregistered so the active set becomes `{A}`, and
`"Client #2 left the chat"` is broadcast to A only. -/
theorem websocket_session_scenario :
    ConnectionManager.connect 2 (ConnectionManager.connect 1 []) = [2, 1]
    ∧ handle_message 1 "hi" [2, 1] =
        [(1, "You wrote: hi"),
         (2, "Client #1 says: hi"), (1, "Client #1 says: hi")]
    ∧ handle_disconnect 2 [2, 1] = ([1], [(1, "Client #2 left the chat")]) := by
  refine ⟨rfl, ?_, ?_⟩ <;> decide

/-- C10: only the transport's disconnect signal triggers deregistration and
the departure broadcast: if the receive outcomes contain no
`WebSocketDisconnect` — in particular when the loop ends because receiving or
handling a message raised any other exception — the active set stays exactly
what it was after connecting (the connection is still registered) and no
delivery carries the departure notice. -/
theorem failure_keeps_registration (u : Nat) (s : List Nat)
    (evs : List WsEvent) (h : WsEvent.disconnect ∉ evs) :
    (websocket_events u s evs).1 = ConnectionManager.connect u s
    ∧ u ∈ (websocket_events u s evs).1
    ∧ ∀ c m, (c, m) ∈ (websocket_events u s evs).2 → m ≠ leftMsg u := by
  obtain ⟨h1, h2⟩ :=
    session_loop_no_disconnect u evs h (ConnectionManager.connect u s)
  refine ⟨h1, ?_, h2⟩
  show u ∈ (session_loop u (ConnectionManager.connect u s) evs).1
  rw [h1]
  exact (mem_connect u u s).mpr (Or.inl rfl)

/-- Witness for C10: user `1` joins `{2}`, sends `"hi"`, then the loop hits a
non-disconnect exception; the active set is still `[1, 2]`. -/
theorem failure_keeps_registration_witness :
    (websocket_events 1 [2] [WsEvent.msg "hi", WsEvent.failure]).1 = [1, 2] :=
  ((failure_keeps_registration 1 [2] [WsEvent.msg "hi", WsEvent.failure]
      (by decide)).1).trans (by rfl)

/-! ## Event CRUD routes (`src/app/api/routes/events.py`) -/

/-- An event record: the persistence layer's fields that the route handlers
inspect (its id, owning user and title). -/
structure Event where
  id : Nat
  userId : Nat
  title : String
deriving DecidableEq, Repr

/-- Modelled from the spec: the `EventRepository` class
(`app/database/repositories/event_repository.py`) is not among the provided
sources.  The spec describes it as exposing `create`, `get_by_title`,
`get_by_id`, `list(limit, offset)`, `update`, `delete` "keyed by event id /
title and scoped to an owning user id; returns a domain record or an absence
indicator", with a "generic creation/update failure" also possible; the
stored records are a list of events and the generic failures are modelled by
the two flags. -/
structure EventRepositoryState where
  events : List Event
  createFails : Bool
  updateFails : Bool
deriving DecidableEq, Repr

/-- Modelled from the spec: `app/resources/strings.py` is not among the
provided sources; each error is "mapped to a distinct HTTP status and a fixed
user-facing message string", so only the constants' distinctness matters. -/
def EVENT_IS_EXISTS : String := "EVENT_IS_EXISTS"

/-- Modelled from the spec: fixed user-facing message for an unknown event
id (`app/resources/strings.py` is not among the provided sources). -/
def EVENT_DOES_NOT_EXIST : String := "EVENT_DOES_NOT_EXIST"

/-- Modelled from the spec: fixed user-facing message for a generic
creation/update failure (`app/resources/strings.py` is not among the provided
sources). -/
def EVENT_CREATE_ERROR : String := "EVENT_CREATE_ERROR"

namespace EventRepository

/-- Modelled from the spec: lookup by title, returning a domain record or an
absence indicator. -/
def get_event_by_title (r : EventRepositoryState) (t : String) : Option Event :=
  r.events.find? (fun e => e.title == t)

/-- Modelled from the spec: lookup by id, returning a domain record or an
absence indicator. -/
def get_event_by_id (r : EventRepositoryState) (i : Nat) : Option Event :=
  r.events.find? (fun e => e.id == i)

/-- Modelled from the spec: creation scoped to an owning user id; returns the
new record, or the absence indicator on a generic creation failure. -/
def create_event_by_user_id (r : EventRepositoryState) (uid : Nat)
    (t : String) : Option Event × EventRepositoryState :=
  if r.createFails then (none, r)
  else
    let e : Event := { id := r.events.length + 1, userId := uid, title := t }
    (some e, { r with events := r.events ++ [e] })

/-- Modelled from the spec: update keyed by event id and scoped to an owning
user id; returns the updated record, or the absence indicator on a generic
update failure. -/
def update_event_by_id (r : EventRepositoryState) (uid : Nat) (i : Nat)
    (t : String) : Option Event × EventRepositoryState :=
  if r.updateFails then (none, r)
  else
    let e : Event := { id := i, userId := uid, title := t }
    (some e,
     { r with events := r.events.map (fun ev => if ev.id == i then e else ev) })

/-- Modelled from the spec: deletion keyed by event id and scoped to an
owning user id. -/
def delete_event_by_id (r : EventRepositoryState) (uid : Nat) (i : Nat) :
    EventRepositoryState :=
  { r with events := r.events.filter (fun e => e.id != i) }

end EventRepository

/-- A repository operation performed by a handler, recorded in call order. -/
inductive RepoCall where
  | get_by_title (t : String)
  | get_by_id (i : Nat)
  | create (uid : Nat) (t : String)
  | update (uid : Nat) (i : Nat) (t : String)
  | delete (uid : Nat) (i : Nat)
deriving DecidableEq, Repr

/-- What a route handler hands back to the framework: a 200 wrapper response
with a payload, or a raised `HTTPException(status_code, detail)`. -/
inductive HandlerResult (α : Type) where
  | ok (payload : α)
  | httpError (statusCode : Nat) (detail : String)
deriving DecidableEq, Repr

namespace Routes

/-- `create_event` (`POST /events`) from `src/app/api/routes/events.py`:
duplicate-title check (409), then creation with `if not event` mapped to 400,
else the wrapped record.  Returns the result, the repository state afterwards,
and the repository calls made, in order. -/
def create_event (r : EventRepositoryState) (uid : Nat) (title : String) :
    HandlerResult Event × EventRepositoryState × List RepoCall :=
  if (EventRepository.get_event_by_title r title).isSome then
    (.httpError 409 EVENT_IS_EXISTS, r, [.get_by_title title])
  else
    match EventRepository.create_event_by_user_id r uid title with
    | (none, r') =>
      (.httpError 400 EVENT_CREATE_ERROR, r',
       [.get_by_title title, .create uid title])
    | (some e, r') =>
      (.ok e, r', [.get_by_title title, .create uid title])

/-- `get_event_by_id` (`GET /events/{event_id}`) from
`src/app/api/routes/events.py`: `if not event` mapped to 404, else the
wrapped record. -/
def get_event_by_id (r : EventRepositoryState) (event_id : Nat) :
    HandlerResult Event × EventRepositoryState × List RepoCall :=
  match EventRepository.get_event_by_id r event_id with
  | none => (.httpError 404 EVENT_DOES_NOT_EXIST, r, [.get_by_id event_id])
  | some e => (.ok e, r, [.get_by_id event_id])

/-- `update_event_by_id` (`PATCH /events/{event_id}`) from
`src/app/api/routes/events.py`: duplicate-title check first (409), then
existence check (404), then the update with `if not event` mapped to 400
(the source reuses the creation-failure message there). -/
def update_event_by_id (r : EventRepositoryState) (uid : Nat)
    (event_id : Nat) (title : String) :
    HandlerResult Event × EventRepositoryState × List RepoCall :=
  if (EventRepository.get_event_by_title r title).isSome then
    (.httpError 409 EVENT_IS_EXISTS, r, [.get_by_title title])
  else if (EventRepository.get_event_by_id r event_id).isNone then
    (.httpError 404 EVENT_DOES_NOT_EXIST, r,
     [.get_by_title title, .get_by_id event_id])
  else
    match EventRepository.update_event_by_id r uid event_id title with
    | (none, r') =>
      (.httpError 400 EVENT_CREATE_ERROR, r',
       [.get_by_title title, .get_by_id event_id, .update uid event_id title])
    | (some e, r') =>
      (.ok e, r',
       [.get_by_title title, .get_by_id event_id, .update uid event_id title])

/-- `delete_event_by_id` (`DELETE /events/{event_id}`) from
`src/app/api/routes/events.py`: `if not ... get_event_by_id` mapped to 409,
else delete and return an empty wrapper response. -/
def delete_event_by_id (r : EventRepositoryState) (uid : Nat)
    (event_id : Nat) :
    HandlerResult Unit × EventRepositoryState × List RepoCall :=
  if (EventRepository.get_event_by_id r event_id).isNone then
    (.httpError 409 EVENT_DOES_NOT_EXIST, r, [.get_by_id event_id])
  else
    (.ok (), EventRepository.delete_event_by_id r uid event_id,
     [.get_by_id event_id, .delete uid event_id])

end Routes

/-! ### Lemmas about the repository queries -/

theorem get_event_by_title_isSome (r : EventRepositoryState) (t : String) :
    (EventRepository.get_event_by_title r t).isSome = true ↔
      ∃ e ∈ r.events, e.title = t := by
  simp [EventRepository.get_event_by_title, List.find?_isSome]

/-! ## Claim theorems for the CRUD routes -/

/-- C4: when some stored event already carries the requested title,
`POST /events` answers 409 with the fixed duplicate message, leaves the
repository unchanged and never calls the repository's create operation; when
there is no such conflict but creation returns no record, it answers 400 with
the fixed creation-failure message. -/
theorem create_event_conflict_and_failure (r : EventRepositoryState)
    (uid : Nat) (title : String) :
    ((∃ e ∈ r.events, e.title = title) →
        (Routes.create_event r uid title).1 =
            .httpError 409 EVENT_IS_EXISTS
        ∧ (Routes.create_event r uid title).2.1 = r
        ∧ ∀ c ∈ (Routes.create_event r uid title).2.2,
            c ≠ RepoCall.create uid title)
    ∧ ((¬∃ e ∈ r.events, e.title = title) → r.createFails = true →
        (Routes.create_event r uid title).1 =
          .httpError 400 EVENT_CREATE_ERROR) := by
  constructor
  · intro hconf
    have hs : (EventRepository.get_event_by_title r title).isSome = true :=
      (get_event_by_title_isSome r title).mpr hconf
    simp [Routes.create_event, hs]
  · intro hconf hcf
    have hs : (EventRepository.get_event_by_title r title).isSome = false := by
      rw [Bool.eq_false_iff]
      intro habs
      exact hconf ((get_event_by_title_isSome r title).mp habs)
    simp [Routes.create_event, hs, EventRepository.create_event_by_user_id, hcf]

/-- Witness for C4: creating an event titled `"t"` when one already exists
answers 409 and leaves the repository as it was. -/
theorem create_event_conflict_and_failure_witness :
    (Routes.create_event ⟨[⟨1, 7, "t"⟩], false, false⟩ 7 "t").1 =
        HandlerResult.httpError 409 EVENT_IS_EXISTS
    ∧ (Routes.create_event ⟨[⟨1, 7, "t"⟩], false, false⟩ 7 "t").2.1 =
        ⟨[⟨1, 7, "t"⟩], false, false⟩ :=
  ⟨((create_event_conflict_and_failure ⟨[⟨1, 7, "t"⟩], false, false⟩ 7 "t").1
      (by decide)).1,
   ((create_event_conflict_and_failure ⟨[⟨1, 7, "t"⟩], false, false⟩ 7 "t").1
      (by decide)).2.1⟩

/-- C5: when the repository reports no event under the requested id,
`DELETE /events/{event_id}` answers 409 with the fixed message and never calls
the repository's delete operation (the repository is unchanged); when the
event exists, it deletes and answers with the empty success wrapper. -/
theorem delete_event_missing_conflict (r : EventRepositoryState)
    (uid : Nat) (event_id : Nat) :
    (EventRepository.get_event_by_id r event_id = none →
        (Routes.delete_event_by_id r uid event_id).1 =
            .httpError 409 EVENT_DOES_NOT_EXIST
        ∧ (Routes.delete_event_by_id r uid event_id).2.1 = r
        ∧ ∀ c ∈ (Routes.delete_event_by_id r uid event_id).2.2,
            c ≠ RepoCall.delete uid event_id)
    ∧ (∀ e, EventRepository.get_event_by_id r event_id = some e →
        (Routes.delete_event_by_id r uid event_id).1 = .ok ()
        ∧ (Routes.delete_event_by_id r uid event_id).2.1 =
            EventRepository.delete_event_by_id r uid event_id) := by
  constructor
  · intro hnone
    simp [Routes.delete_event_by_id, hnone]
  · intro e he
    simp [Routes.delete_event_by_id, he]

/-- Witness for C5: deleting id `1` from an empty repository answers 409. -/
theorem delete_event_missing_conflict_witness :
    (Routes.delete_event_by_id ⟨[], false, false⟩ 7 1).1 =
        HandlerResult.httpError 409 EVENT_DOES_NOT_EXIST :=
  ((delete_event_missing_conflict ⟨[], false, false⟩ 7 1).1 (by decide)).1

/-- C6: `GET /events/{event_id}` answers 404 with the fixed message exactly
when the repository reports no event under the requested id; when the
repository returns a record, the handler answers with that record wrapped in
the success response. -/
theorem get_event_by_id_mapping (r : EventRepositoryState) (event_id : Nat) :
    ((Routes.get_event_by_id r event_id).1 =
          .httpError 404 EVENT_DOES_NOT_EXIST ↔
        EventRepository.get_event_by_id r event_id = none)
    ∧ (∀ e, EventRepository.get_event_by_id r event_id = some e →
        (Routes.get_event_by_id r event_id).1 = .ok e) := by
  cases hm : EventRepository.get_event_by_id r event_id with
  | none => simp [Routes.get_event_by_id, hm]
  | some e => simp [Routes.get_event_by_id, hm]

/-- Witness for C6: fetching id `1` when it is stored answers with the
wrapped record. -/
theorem get_event_by_id_mapping_witness :
    (Routes.get_event_by_id ⟨[⟨1, 7, "t"⟩], false, false⟩ 1).1 =
        HandlerResult.ok ⟨1, 7, "t"⟩ :=
  (get_event_by_id_mapping ⟨[⟨1, 7, "t"⟩], false, false⟩ 1).2
    ⟨1, 7, "t"⟩ (by decide)

/-- C9: in `PATCH /events/{event_id}` the duplicate-title check runs before
the existence check and does not exclude the target event: whenever any stored
event — the target's own unchanged title included — carries the requested
title, the handler answers 409 with the fixed duplicate message, leaves the
repository unchanged, and never calls the repository's update operation, even
when the requested id does not exist (409 takes precedence over 404). -/
theorem update_event_title_conflict_precedence (r : EventRepositoryState)
    (uid : Nat) (event_id : Nat) (title : String)
    (hconf : ∃ e ∈ r.events, e.title = title) :
    (Routes.update_event_by_id r uid event_id title).1 =
        .httpError 409 EVENT_IS_EXISTS
    ∧ (Routes.update_event_by_id r uid event_id title).2.1 = r
    ∧ ∀ c ∈ (Routes.update_event_by_id r uid event_id title).2.2,
        c ≠ RepoCall.update uid event_id title := by
  have hs : (EventRepository.get_event_by_title r title).isSome = true :=
    (get_event_by_title_isSome r title).mpr hconf
  simp [Routes.update_event_by_id, hs]

/-- Witness for C9: updating the nonexistent id `99` with the title `"t"` of
the stored event `1` answers 409, not 404, although id `99` is absent. -/
theorem update_event_title_conflict_precedence_witness :
    (Routes.update_event_by_id ⟨[⟨1, 7, "t"⟩], false, false⟩ 7 99 "t").1 =
        HandlerResult.httpError 409 EVENT_IS_EXISTS
    ∧ EventRepository.get_event_by_id ⟨[⟨1, 7, "t"⟩], false, false⟩ 99 = none :=
  ⟨(update_event_title_conflict_precedence ⟨[⟨1, 7, "t"⟩], false, false⟩
      7 99 "t" (by decide)).1,
   by decide⟩

end Ride2Online
